import Mathlib

/-!
Shallow embedding of `deluge-exporter.py`: a Prometheus exporter for the
Deluge torrent client.  The embedding models the `DelugeCollector` class —
its session state machine (`get_deluge_stats`, `get_login`, `get_connection`,
`get_webui_data`), the stats mapping (`collect`, `process_torrents_stats`) —
and the startup sequence in `main`.  Network responses are supplied by an
environment record; Python exceptions become an explicit error type; the
in-place mutation of torrent dictionaries is modelled by explicit state
passing.
-/

namespace DelugeExporter

/-- Models Python string lower-casing for the basic latin range, character by
character (Lean's `Char.toLower` performs exactly the ASCII `A`-`Z` shift that
Python's `str.lower` performs on these inputs). -/
def pyLower (s : String) : String :=
  ⟨s.data.map Char.toLower⟩

/-- A JSON value as it appears in the `stats` part of a `web.update_ui`
response: numbers, booleans and strings (e.g. `external_ip`). -/
inductive PyValue where
  | intV (n : Int)
  | boolV (b : Bool)
  | floatV (q : Rat)
  | strV (s : String)
deriving DecidableEq, Repr

/-- Models `isinstance(value, int) or isinstance(value, float)` (line 44 of the
source).  In Python `bool` is a subtype of `int`, so booleans pass this test. -/
def PyValue.isNumeric : PyValue → Bool
  | .intV _ => true
  | .boolV _ => true
  | .floatV _ => true
  | .strV _ => false

/-- Numeric value carried into a gauge sample; Python `True`/`False` coerce to
`1`/`0`. -/
def PyValue.toRat : PyValue → Rat
  | .intV n => (n : Rat)
  | .boolV b => if b then 1 else 0
  | .floatV q => q
  | .strV _ => 0

/-- One torrent record of the `torrents` dictionary of a snapshot.  Each field
is optional because the upstream JSON dictionary may lack the key; a missing
key makes the Python subscript raise `KeyError`. -/
structure Torrent where
  name : Option String
  state : Option String
  tracker_host : Option String
  total_uploaded : Option Rat
  total_wanted : Option Rat
  total_done : Option Rat
  download_payload_rate : Option Rat
  upload_payload_rate : Option Rat
  total_peers : Option Rat
  total_seeds : Option Rat
  num_peers : Option Rat
  num_seeds : Option Rat
deriving DecidableEq, Repr

/-- True when every field the mapper subscripts is present. -/
def Torrent.complete (t : Torrent) : Bool :=
  t.name.isSome && t.state.isSome && t.tracker_host.isSome &&
  t.total_uploaded.isSome && t.total_wanted.isSome && t.total_done.isSome &&
  t.download_payload_rate.isSome && t.upload_payload_rate.isSome &&
  t.total_peers.isSome && t.total_seeds.isSome &&
  t.num_peers.isSome && t.num_seeds.isSome

/-- The `filters` part of a snapshot: the `state` key is subscripted directly
(line 30, `KeyError` if absent) while `label` is read with `.get(..., [])`
(line 37). -/
structure Filters where
  state : Option (List (String × Rat))
  label : Option (List (String × Rat))
deriving DecidableEq, Repr

/-- The `result` value of a successful `web.update_ui` call: connection flag,
filter aggregates, global stats (dictionary in insertion order) and torrent
records (dictionary, iterated by `.values()`). -/
structure Snapshot where
  connected : Bool
  filters : Filters
  stats : List (String × PyValue)
  torrents : List Torrent
deriving DecidableEq, Repr

/-- Python exceptions raised by the source, one constructor per raise site /
builtin exception class, named after the message prefix. -/
inductive PyErr where
  | keyError
  | typeError
  | indexError
  | loginHttpError (code : Nat)
  | loginBadCreds
  | connHttpError (code : Nat)
  | connBadResponse
  | statsHttpError (code : Nat)
  | getStatsError
deriving DecidableEq, Repr

/-- Modelled from the spec: the §7 taxonomy's `AuthError` names exactly the
exceptions raised inside `get_login` (bad HTTP status or falsy result). -/
def PyErr.isAuthError : PyErr → Bool
  | .loginHttpError _ => true
  | .loginBadCreds => true
  | _ => false

/-- Modelled from the spec: the §7 taxonomy's `ConnectionSetupError` names the
exceptions raised inside `get_connection` with the message prefix
`Get connection error!`. -/
def PyErr.isConnectionSetupError : PyErr → Bool
  | .connHttpError _ => true
  | .connBadResponse => true
  | _ => false

/-- Modelled from the spec: the §7 taxonomy's `SessionError` names the
`Get stats error! Data: ...` exception raised at line 68 after failed
recovery. -/
def PyErr.isSessionError : PyErr → Bool
  | .getStatsError => true
  | _ => false

/-- One emitted gauge sample: metric name, (label name, label value) pairs and
the numeric value. -/
structure Obs where
  name : String
  labels : List (String × String)
  value : Rat
deriving DecidableEq, Repr

/-- All eight numeric fields plus the three identifying strings of one torrent
after a successful pass over lines 154-163: the data appended to the nine
result lists. -/
structure Row where
  name : String
  state : String
  tracker_host : String
  total_uploaded : Rat
  total_wanted : Rat
  total_done : Rat
  download_payload_rate : Rat
  upload_payload_rate : Rat
  total_peers : Rat
  total_seeds : Rat
  num_peers : Rat
  num_seeds : Rat
deriving DecidableEq, Repr

/-- The subscripts of lines 155-163 on one (already state-lowered) torrent:
`some` row when every key is present, `none` when any subscript would raise
`KeyError`. -/
def rowOf (t : Torrent) : Option Row :=
  match t.name, t.state, t.tracker_host, t.total_uploaded, t.total_wanted,
      t.total_done, t.download_payload_rate, t.upload_payload_rate,
      t.total_peers, t.total_seeds, t.num_peers, t.num_seeds with
  | some n, some st, some th, some u, some w, some dn, some dr, some ur,
      some tp, some ts, some np, some ns =>
    some ⟨n, st, th, u, w, dn, dr, ur, tp, ts, np, ns⟩
  | _, _, _, _, _, _, _, _, _, _, _, _ => none

/-- One iteration of the loop body (lines 153-163): line 154 subscripts
`torrent["state"]` (raising `KeyError` when absent) and mutates the record
in place with the lower-cased state; the appends then need every other key.
The returned torrent is the record as left behind by the iteration. -/
def procTorrent (t : Torrent) : Torrent × Except PyErr Row :=
  match t.state with
  | none => (t, .error .keyError)
  | some st =>
    let t' := { t with state := some (pyLower st) }
    match rowOf t' with
    | none => (t', .error .keyError)
    | some row => (t', .ok row)

/-- Models `process_torrents_stats` (lines 140-165) with the dictionary
mutation made explicit: returns the torrent list as mutated by the loop and
either the per-torrent rows (from which the nine result lists are read off) or
the first `KeyError`, which aborts the loop. -/
def processTorrentsStats : List Torrent → List Torrent × Except PyErr (List Row)
  | [] => ([], .ok [])
  | t :: rest =>
    match procTorrent t with
    | (t', .error e) => (t' :: rest, .error e)
    | (t', .ok row) =>
      match processTorrentsStats rest with
      | (rest', .error e) => (t' :: rest', .error e)
      | (rest', .ok rows) => (t' :: rest', .ok (row :: rows))

/-- The keys of the `res` dictionary of `process_torrents_stats` in insertion
order, each with the torrent field appended under it. -/
def resKeys : List (String × (Row → Rat)) :=
  [("total_uploaded_bytes", Row.total_uploaded),
   ("total_wanted_bytes", Row.total_wanted),
   ("total_done_bytes", Row.total_done),
   ("download_payload_byte_rate", Row.download_payload_rate),
   ("upload_payload_byte_rate", Row.upload_payload_rate),
   ("peers_total", Row.total_peers),
   ("seeds_total", Row.total_seeds),
   ("peers_connected_total", Row.num_peers),
   ("seeds_connected_total", Row.num_seeds)]

/-- The per-torrent gauges yielded by lines 52-57: for each result key in
dictionary order, one metric per torrent, labelled name / state /
tracker_host. -/
def torrentsObs (rows : List Row) : List Obs :=
  resKeys.flatMap fun kf =>
    rows.map fun r =>
      ⟨"deluge_" ++ pyLower kf.1,
       [("name", r.name), ("state", r.state), ("tracker_host", r.tracker_host)],
       kf.2 r⟩

/-- The global-stats gauges yielded by lines 42-48: one unlabelled gauge per
numeric entry, named `deluge_` plus the lower-cased key; non-numeric entries
are skipped. -/
def statsObs (stats : List (String × PyValue)) : List Obs :=
  stats.filterMap fun kv =>
    if kv.2.isNumeric then some ⟨"deluge_" ++ pyLower kv.1, [], kv.2.toRat⟩
    else none

/-- The sample sequence produced by the body of `collect` (lines 27-57) after
`get_deluge_stats` succeeded, paired with any exception escaping the generator
and with the snapshot as left behind (torrent states mutated in place by
`process_torrents_stats`).  Line 30 subscripts `filters["state"]` before any
yield, so a missing `state` filter raises `KeyError` with nothing emitted;
a `KeyError` inside `process_torrents_stats` escapes after the filter and
stats samples were already yielded. -/
def mapSnapshot (s : Snapshot) : (List Obs × Option PyErr) × Snapshot :=
  match s.filters.state with
  | none => (([], some .keyError), s)
  | some stateList =>
    let o1 := stateList.map fun p =>
      (⟨"deluge_torrent_state_count", [("state", pyLower p.1)], p.2⟩ : Obs)
    let o2 := (s.filters.label.getD []).map fun p =>
      (⟨"deluge_torrent_label_count", [("label", pyLower p.1)], p.2⟩ : Obs)
    let o3 := statsObs s.stats
    match processTorrentsStats s.torrents with
    | (ts', .error e) => ((o1 ++ o2 ++ o3, some e), { s with torrents := ts' })
    | (ts', .ok rows) =>
      ((o1 ++ o2 ++ o3 ++ torrentsObs rows, none), { s with torrents := ts' })

/-- An HTTP response as the source sees it: status code and the decoded
`result` field of the JSON body. -/
structure HttpResp (α : Type) where
  status : Nat
  result : α
deriving Repr

/-- The upstream's behaviour during one `get_deluge_stats` call: the response
to the i-th `web.update_ui` POST, to `auth.login` (result truthiness), to
`web.get_hosts` (`none` models a null result; each host entry is a list whose
head is the host id) and to `web.connect` (result truthiness). -/
structure Env where
  updateUi : Nat → HttpResp (Option Snapshot)
  login : HttpResp Bool
  getHosts : HttpResp (Option (List (List Nat)))
  connect : HttpResp Bool

/-- The upstream RPC calls, recorded as a trace. -/
inductive Call where
  | updateUiCall
  | loginCall
  | getHostsCall
  | connectCall (sid : Nat)
deriving DecidableEq, Repr

/-- Models `get_webui_data` (lines 113-138) for the i-th `web.update_ui` call
of the scrape: raises on non-200 status, otherwise returns the `result` field
(which may be null). -/
def get_webui_data (env : Env) (i : Nat) : Except PyErr (Option Snapshot) :=
  let r := env.updateUi i
  if r.status = 200 then .ok r.result else .error (.statsHttpError r.status)

/-- Models `get_login` (lines 71-84): raises on non-200 status, raises
`Get login error! Bad credentials` on a falsy result, otherwise returns. -/
def get_login (env : Env) : Except PyErr Unit :=
  if env.login.status = 200 then
    if env.login.result then .ok () else .error .loginBadCreds
  else .error (.loginHttpError env.login.status)

/-- Models `get_connection` (lines 86-111) together with its call trace:
`web.get_hosts`, then — when the host list is non-empty — `web.connect` on
`result[0][0]`.  A null or empty host list raises the
`Get connection error! Bad response` exception; an empty first entry makes
`result[0][0]` raise `IndexError`. -/
def get_connection (env : Env) : Except PyErr Unit × List Call :=
  if env.getHosts.status = 200 then
    match env.getHosts.result with
    | none => (.error .connBadResponse, [.getHostsCall])
    | some [] => (.error .connBadResponse, [.getHostsCall])
    | some ([] :: _) => (.error .indexError, [.getHostsCall])
    | some ((sid :: _) :: _) =>
      if env.connect.status = 200 then
        if env.connect.result then (.ok (), [.getHostsCall, .connectCall sid])
        else (.error .connBadResponse, [.getHostsCall, .connectCall sid])
      else (.error (.connHttpError env.connect.status),
            [.getHostsCall, .connectCall sid])
  else (.error (.connHttpError env.getHosts.status), [.getHostsCall])

/-- Lines 64-69 of `get_deluge_stats`, entered with the data of lines 60-63:
line 64 subscripts `data["connected"]` (`TypeError` when `data` is `None`),
performs the connect recovery and one final `web.update_ui` when disconnected,
and line 67-68 raises the `Get stats error! Data:` exception when the final
data is null or still disconnected.  `i` is the index of the next
`web.update_ui` call; `tr` the trace so far. -/
def statusPhase (env : Env) (data : Option Snapshot) (i : Nat) (tr : List Call) :
    Except PyErr Snapshot × List Call :=
  match data with
  | none => (.error .typeError, tr)
  | some d =>
    if d.connected then (.ok d, tr)
    else
      match get_connection env with
      | (.error e, ctr) => (.error e, tr ++ ctr)
      | (.ok _, ctr) =>
        match get_webui_data env i with
        | .error e => (.error e, tr ++ ctr ++ [.updateUiCall])
        | .ok none => (.error .getStatsError, tr ++ ctr ++ [.updateUiCall])
        | .ok (some d2) =>
          if d2.connected then (.ok d2, tr ++ ctr ++ [.updateUiCall])
          else (.error .getStatsError, tr ++ ctr ++ [.updateUiCall])

/-- Models `get_deluge_stats` (lines 59-69) together with its upstream call
trace: fetch, login recovery when the result is null, then the connect
recovery phase of lines 64-69. -/
def get_deluge_stats (env : Env) : Except PyErr Snapshot × List Call :=
  match get_webui_data env 0 with
  | .error e => (.error e, [.updateUiCall])
  | .ok (some d) => statusPhase env (some d) 1 [.updateUiCall]
  | .ok none =>
    match get_login env with
    | .error e => (.error e, [.updateUiCall, .loginCall])
    | .ok _ =>
      match get_webui_data env 1 with
      | .error e => (.error e, [.updateUiCall, .loginCall, .updateUiCall])
      | .ok d1 => statusPhase env d1 2 [.updateUiCall, .loginCall, .updateUiCall]

/-- Models one scrape through `collect` (lines 20-57): an exception from
`get_deluge_stats` is caught and logged and the scrape yields nothing; on
success the generator yields the samples of `mapSnapshot`, from which an
exception may still escape (second component). -/
def collect (env : Env) : List Obs × Option PyErr :=
  match (get_deluge_stats env).1 with
  | .error _ => ([], none)
  | .ok s => (mapSnapshot s).1

/-- Models `DelugeCollector.__init__` (lines 13-18): the constructor performs
one full `get_deluge_stats` call and any exception from it propagates. -/
def initCollector (env : Env) : Except PyErr Unit :=
  match (get_deluge_stats env).1 with
  | .error e => .error e
  | .ok _ => .ok ()

/-- Update of a torrent record by line 154: the state lower-cased in place,
every other key untouched. -/
def Torrent.lowerState (t : Torrent) : Torrent :=
  { t with state := t.state.map pyLower }

/-- A usable but still unusable final status response: HTTP 200 with a null
result or a result whose `connected` flag is false (the situation of line 67
after recovery). -/
def stillBad (r : HttpResp (Option Snapshot)) : Prop :=
  r.status = 200 ∧ (r.result = none ∨ ∃ d, r.result = some d ∧ d.connected = false)

/-- The startup steps of `main` after configuration (lines 194-197). -/
inductive MainStep where
  | registerCollector
  | startHttpServer
deriving DecidableEq, Repr

/-- Models lines 194-197 of `main`: the collector is constructed first; only
when the constructor returns are the collector registered and the metrics
server bound, in that order. -/
def mainAfterConfig (env : Env) : Except PyErr (List MainStep) :=
  match initCollector env with
  | .error e => .error e
  | .ok _ => .ok [.registerCollector, .startHttpServer]

/-- A torrent record with every key present. -/
def sampleTorrent : Torrent :=
  { name := some "ubuntu.iso", state := some "Seeding",
    tracker_host := some "tracker.example.org",
    total_uploaded := some 100, total_wanted := some 200, total_done := some 150,
    download_payload_rate := some 10, upload_payload_rate := some 5,
    total_peers := some 3, total_seeds := some 2,
    num_peers := some 1, num_seeds := some 1 }

/-- A torrent record whose `total_wanted` key is missing. -/
def incompleteTorrent : Torrent :=
  { sampleTorrent with total_wanted := none }

/-- A connected snapshot holding one incomplete and one complete torrent. -/
def snapMixed : Snapshot :=
  { connected := true,
    filters := { state := some [("seeding", 1)], label := none },
    stats := [], torrents := [incompleteTorrent, sampleTorrent] }

/-- A connected snapshot holding one complete torrent with an upper-case
state. -/
def snapUpper : Snapshot :=
  { connected := true,
    filters := { state := some [], label := none },
    stats := [], torrents := [sampleTorrent] }

/-- A disconnected snapshot with no torrents. -/
def snapDisc : Snapshot :=
  { connected := false,
    filters := { state := some [], label := none },
    stats := [], torrents := [] }

/-- An upstream that always reports a disconnected session although login,
host listing and connect all succeed. -/
def envStaysDisc : Env :=
  { updateUi := fun _ => ⟨200, some snapDisc⟩,
    login := ⟨200, true⟩,
    getHosts := ⟨200, some [[7]]⟩,
    connect := ⟨200, true⟩ }

/-- An upstream that reports an unauthenticated session and rejects the
credential. -/
def envBadCreds : Env :=
  { updateUi := fun _ => ⟨200, none⟩,
    login := ⟨200, false⟩,
    getHosts := ⟨200, some [[7]]⟩,
    connect := ⟨200, true⟩ }

/-- An upstream whose host list holds one malformed (empty) entry. -/
def envEmptyHostEntry : Env :=
  { updateUi := fun _ => ⟨200, some snapDisc⟩,
    login := ⟨200, true⟩,
    getHosts := ⟨200, some [[]]⟩,
    connect := ⟨200, true⟩ }

/-- An upstream that answers every status query with HTTP 500. -/
def envHttpDown : Env :=
  { updateUi := fun _ => ⟨500, none⟩,
    login := ⟨200, true⟩,
    getHosts := ⟨200, some [[7]]⟩,
    connect := ⟨200, true⟩ }

/-- A healthy upstream serving the mixed snapshot, so that the session phase
succeeds and the mapper hits the incomplete torrent. -/
def envMapperTrips : Env :=
  { updateUi := fun _ => ⟨200, some snapMixed⟩,
    login := ⟨200, true⟩,
    getHosts := ⟨200, some [[7]]⟩,
    connect := ⟨200, true⟩ }

/-! Helper lemmas. -/

theorem char_toNat_ofNat_valid (n : Nat) (h : n < 55296) :
    (Char.ofNat n).toNat = n := by
  have hv : n.isValidChar := Or.inl h
  rw [Char.ofNat, dif_pos hv]
  simp [Char.ofNatAux, Char.toNat, UInt32.toNat]

theorem char_toLower_idem (c : Char) : c.toLower.toLower = c.toLower := by
  unfold Char.toLower
  by_cases h : c.toNat ≥ 65 ∧ c.toNat ≤ 90
  · rw [if_pos h]
    have h2 : (Char.ofNat (c.toNat + 32)).toNat = c.toNat + 32 :=
      char_toNat_ofNat_valid _ (by omega)
    rw [if_neg (by omega)]
  · rw [if_neg h, if_neg h]

theorem pyLower_idem (s : String) : pyLower (pyLower s) = pyLower s := by
  unfold pyLower
  simp [List.map_map, Function.comp_def, char_toLower_idem]

theorem rowOf_isSome (t : Torrent) : (rowOf t).isSome = t.complete := by
  unfold rowOf Torrent.complete
  rcases t with ⟨n, st, th, u, w, dn, dr, ur, tp, ts, np, ns⟩
  cases n <;> cases st <;> cases th <;> cases u <;> cases w <;> cases dn <;>
    cases dr <;> cases ur <;> cases tp <;> cases ts <;> cases np <;> cases ns <;> rfl

theorem procTorrent_idem (t : Torrent) : procTorrent (procTorrent t).1 = procTorrent t := by
  cases hs : t.state with
  | none => simp [procTorrent, hs]
  | some st =>
    simp only [procTorrent, hs]
    cases hr : rowOf { t with state := some (pyLower st) } with
    | none => simp [procTorrent, pyLower_idem, hr]
    | some row => simp [procTorrent, pyLower_idem, hr]

theorem procTorrent_not_complete (t : Torrent) (h : t.complete = false) :
    (procTorrent t).2 = .error .keyError := by
  cases hs : t.state with
  | none => simp [procTorrent, hs]
  | some st =>
    have hc : ({ t with state := some (pyLower st) } : Torrent).complete = false := by
      simp [Torrent.complete, hs] at h ⊢
      exact h
    have hrow : rowOf { t with state := some (pyLower st) } = none := by
      have := rowOf_isSome { t with state := some (pyLower st) }
      rw [hc] at this
      exact Option.not_isSome_iff_eq_none.mp (by simp [this])
    simp [procTorrent, hs, hrow]

theorem procTorrent_complete (t : Torrent) (h : t.complete = true) :
    ∃ r, procTorrent t = (t.lowerState, .ok r) := by
  have hst : ∃ st, t.state = some st := by
    simp only [Torrent.complete, Bool.and_eq_true, Option.isSome_iff_exists] at h
    exact h.1.1.1.1.1.1.1.1.1.1.2
  obtain ⟨st, hs⟩ := hst
  have hc : ({ t with state := some (pyLower st) } : Torrent).complete = true := by
    simp [Torrent.complete, hs] at h ⊢
    exact h
  have hrow : (rowOf { t with state := some (pyLower st) }).isSome = true := by
    rw [rowOf_isSome, hc]
  obtain ⟨r, hr⟩ := Option.isSome_iff_exists.mp hrow
  refine ⟨r, ?_⟩
  simp [procTorrent, hs, hr, Torrent.lowerState]

theorem processTorrentsStats_idem (ts : List Torrent) :
    processTorrentsStats (processTorrentsStats ts).1 = processTorrentsStats ts := by
  induction ts with
  | nil => rfl
  | cons t rest ih =>
    simp only [processTorrentsStats]
    cases hp : procTorrent t with
    | mk t' r =>
      have hidem : procTorrent t' = (t', r) := by
        have := procTorrent_idem t
        rw [hp] at this
        exact this
      cases r with
      | error e => simp [processTorrentsStats, hidem]
      | ok row =>
        cases hq : processTorrentsStats rest with
        | mk rest' rr =>
          have hir : processTorrentsStats rest' = (rest', rr) := by
            have := ih
            rw [hq] at this
            exact this
          cases rr with
          | error e => simp [processTorrentsStats, hidem, hir]
          | ok rows => simp [processTorrentsStats, hidem, hir]

theorem processTorrentsStats_error_of_incomplete (ts : List Torrent)
    (h : ∃ t ∈ ts, t.complete = false) :
    (processTorrentsStats ts).2 = .error .keyError := by
  induction ts with
  | nil => simp at h
  | cons t rest ih =>
    simp only [processTorrentsStats]
    by_cases hc : t.complete = true
    · obtain ⟨r, hr⟩ := procTorrent_complete t hc
      rw [hr]
      have hrest : ∃ u ∈ rest, u.complete = false := by
        rcases h with ⟨u, hu, hcu⟩
        rcases List.mem_cons.mp hu with h1 | h2
        · rw [h1] at hcu; rw [hcu] at hc; cases hc
        · exact ⟨u, h2, hcu⟩
      cases hq : processTorrentsStats rest with
      | mk rest' rr =>
        have := ih hrest
        rw [hq] at this
        cases rr with
        | error e => simp at this; rw [this]
        | ok rows => simp at this
    · have hcf : t.complete = false := by
        cases hcc : t.complete
        · rfl
        · exact absurd hcc hc
      have := procTorrent_not_complete t hcf
      cases hp : procTorrent t with
      | mk t' r =>
        rw [hp] at this
        simp at this
        rw [this]

theorem processTorrentsStats_ok_of_complete (ts : List Torrent)
    (h : ∀ t ∈ ts, t.complete = true) :
    ∃ rows, processTorrentsStats ts = (ts.map Torrent.lowerState, .ok rows) ∧
      rows.length = ts.length := by
  induction ts with
  | nil => exact ⟨[], rfl, rfl⟩
  | cons t rest ih =>
    obtain ⟨r, hr⟩ := procTorrent_complete t (h t (List.mem_cons_self t rest))
    obtain ⟨rows, hrows, hlen⟩ := ih fun u hu => h u (List.mem_cons_of_mem t hu)
    refine ⟨r :: rows, ?_, by simp [hlen]⟩
    simp [processTorrentsStats, hr, hrows]

theorem statusPhase_ok_connected (env : Env) (data : Option Snapshot) (i : Nat)
    (tr : List Call) (s : Snapshot) (tr' : List Call)
    (h : statusPhase env data i tr = (.ok s, tr')) : s.connected = true := by
  unfold statusPhase at h
  repeat' split at h
  all_goals simp_all

theorem get_deluge_stats_ok_connected (env : Env) (s : Snapshot)
    (h : (get_deluge_stats env).1 = .ok s) : s.connected = true := by
  unfold get_deluge_stats at h
  split at h
  · simp at h
  · rename_i d _
    cases hsp : statusPhase env (some d) 1 [.updateUiCall] with
    | mk r tr =>
      rw [hsp] at h
      simp at h
      rw [h] at hsp
      exact statusPhase_ok_connected env (some d) 1 [.updateUiCall] s tr hsp
  · split at h
    · simp at h
    · split at h
      · simp at h
      · rename_i d1 _
        cases hsp : statusPhase env d1 2 [.updateUiCall, .loginCall, .updateUiCall] with
        | mk r tr =>
          rw [hsp] at h
          simp at h
          rw [h] at hsp
          exact statusPhase_ok_connected env d1 2 _ s tr hsp

theorem statusPhase_stillBad (env : Env) (d : Snapshot) (i : Nat) (tr : List Call)
    (hd : d.connected = false) (hcon : (get_connection env).1 = .ok ())
    (hbad : stillBad (env.updateUi i)) :
    (statusPhase env (some d) i tr).1 = .error .getStatsError := by
  cases hg : get_connection env with
  | mk cr ctr =>
    rw [hg] at hcon
    simp at hcon
    subst hcon
    obtain ⟨hst, hres⟩ := hbad
    have hw : get_webui_data env i = .ok (env.updateUi i).result := by
      simp [get_webui_data, hst]
    rcases hres with hn | ⟨d2, hd2, hc2⟩
    · simp [statusPhase, hd, hg, hw, hn]
    · simp [statusPhase, hd, hg, hw, hd2, hc2]

theorem mapSnapshot_preserves (s : Snapshot) :
    (mapSnapshot s).2.connected = s.connected ∧
    (mapSnapshot s).2.filters = s.filters ∧
    (mapSnapshot s).2.stats = s.stats := by
  cases hf : s.filters.state with
  | none => simp [mapSnapshot, hf]
  | some l =>
    cases hp : processTorrentsStats s.torrents with
    | mk ts' r => cases r <;> simp [mapSnapshot, hf, hp]

theorem processTorrentsStats_fst_of_ok (ts : List Torrent) (ts' : List Torrent)
    (rows : List Row) (h : processTorrentsStats ts = (ts', .ok rows)) :
    ts' = ts.map Torrent.lowerState := by
  induction ts generalizing ts' rows with
  | nil =>
    simp only [processTorrentsStats] at h
    simp [← (Prod.mk.injEq .. |>.mp h).1]
  | cons t rest ih =>
    simp only [processTorrentsStats] at h
    cases hp : procTorrent t with
    | mk t' r =>
      rw [hp] at h
      cases r with
      | error e => simp at h
      | ok row =>
        cases hq : processTorrentsStats rest with
        | mk rest' rr =>
          rw [hq] at h
          cases rr with
          | error e => simp at h
          | ok rows2 =>
            simp at h
            have ht' : t' = t.lowerState := by
              unfold procTorrent at hp
              cases hs : t.state with
              | none => rw [hs] at hp; simp at hp
              | some st =>
                rw [hs] at hp
                simp only [] at hp
                cases hr : rowOf { t with state := some (pyLower st) } with
                | none => rw [hr] at hp; simp at hp
                | some row2 =>
                  rw [hr] at hp
                  simp at hp
                  rw [← hp.1]
                  simp [Torrent.lowerState, hs]
            rw [← h.1, ht', ih rest' rows2 hq]
            simp

/-- C1: for every upstream behaviour, `get_deluge_stats` either returns a
snapshot with `connected = true` or raises; in particular, when the connect
recovery has run (after an optional login recovery) and the final status is
still null or still disconnected, the call fails with the line-68
`Get stats error!` exception, which the spec taxonomy names `SessionError`,
and a snapshot with `connected = false` is never returned. -/
theorem C1_get_status_total (env : Env) :
    (∀ s, (get_deluge_stats env).1 = .ok s → s.connected = true) ∧
    (∀ d, env.updateUi 0 = ⟨200, some d⟩ → d.connected = false →
      (get_connection env).1 = .ok () → stillBad (env.updateUi 1) →
      (get_deluge_stats env).1 = .error .getStatsError ∧
        PyErr.getStatsError.isSessionError = true) ∧
    (∀ d1, env.updateUi 0 = ⟨200, none⟩ → get_login env = .ok () →
      env.updateUi 1 = ⟨200, some d1⟩ → d1.connected = false →
      (get_connection env).1 = .ok () → stillBad (env.updateUi 2) →
      (get_deluge_stats env).1 = .error .getStatsError ∧
        PyErr.getStatsError.isSessionError = true) := by
  refine ⟨fun s h => get_deluge_stats_ok_connected env s h, ?_, ?_⟩
  · intro d h0 hd hcon hbad
    have hw : get_webui_data env 0 = .ok (some d) := by simp [get_webui_data, h0]
    have hred : get_deluge_stats env = statusPhase env (some d) 1 [.updateUiCall] := by
      unfold get_deluge_stats
      rw [hw]
    rw [hred]
    exact ⟨statusPhase_stillBad env d 1 [.updateUiCall] hd hcon hbad, rfl⟩
  · intro d1 h0 hlog h1 hd1 hcon hbad
    have hw0 : get_webui_data env 0 = .ok none := by simp [get_webui_data, h0]
    have hw1 : get_webui_data env 1 = .ok (some d1) := by simp [get_webui_data, h1]
    have hred : get_deluge_stats env =
        statusPhase env (some d1) 2 [.updateUiCall, .loginCall, .updateUiCall] := by
      unfold get_deluge_stats
      rw [hw0, hlog, hw1]
    rw [hred]
    exact ⟨statusPhase_stillBad env d1 2 _ hd1 hcon hbad, rfl⟩

/-- C1 witness: against an upstream that stays disconnected although login,
host listing and connect succeed, the call fails with the `SessionError`
exception. -/
theorem C1_witness :
    (get_deluge_stats envStaysDisc).1 = .error .getStatsError ∧
      PyErr.getStatsError.isSessionError = true :=
  (C1_get_status_total envStaysDisc).2.1 snapDisc rfl rfl rfl
    ⟨rfl, Or.inr ⟨snapDisc, rfl, rfl⟩⟩

/-- C4: when the first status query reports an unauthenticated session and the
login response is a non-200 status or a falsy result, `get_deluge_stats` fails
with one of the `Get login error!` exceptions (the spec taxonomy's
`AuthError`) and the upstream trace ends at the login call: neither
`web.get_hosts` nor `web.connect` is ever issued. -/
theorem C4_login_failure_stops_call (env : Env)
    (h0 : env.updateUi 0 = ⟨200, none⟩)
    (hl : env.login.status ≠ 200 ∨ env.login.result = false) :
    (∃ e, (get_deluge_stats env).1 = .error e ∧ e.isAuthError = true) ∧
    (get_deluge_stats env).2 = [.updateUiCall, .loginCall] := by
  have hw0 : get_webui_data env 0 = .ok none := by simp [get_webui_data, h0]
  by_cases hst : env.login.status = 200
  · have hre : env.login.result = false := by
      rcases hl with h | h
      · exact absurd hst h
      · exact h
    have hlog : get_login env = .error .loginBadCreds := by
      simp [get_login, hst, hre]
    have hred : get_deluge_stats env =
        (.error .loginBadCreds, [.updateUiCall, .loginCall]) := by
      unfold get_deluge_stats
      rw [hw0, hlog]
    exact ⟨⟨.loginBadCreds, by rw [hred], rfl⟩, by rw [hred]⟩
  · have hlog : get_login env = .error (.loginHttpError env.login.status) := by
      simp [get_login, hst]
    have hred : get_deluge_stats env =
        (.error (.loginHttpError env.login.status), [.updateUiCall, .loginCall]) := by
      unfold get_deluge_stats
      rw [hw0, hlog]
    exact ⟨⟨.loginHttpError env.login.status, by rw [hred], rfl⟩, by rw [hred]⟩

/-- C4 witness: an upstream that rejects the credential makes the call fail
with the bad-credentials exception, after exactly the status call and the
login call. -/
theorem C4_witness :
    (get_deluge_stats envBadCreds).1 = .error .loginBadCreds ∧
      PyErr.loginBadCreds.isAuthError = true ∧
      (get_deluge_stats envBadCreds).2 = [.updateUiCall, .loginCall] := by
  have h := C4_login_failure_stops_call envBadCreds rfl (Or.inr rfl)
  exact ⟨rfl, rfl, h.2⟩

/-- C9: any exception from the eager `get_deluge_stats` call of the
constructor propagates: the collector is never registered and the metrics
server never binds, although the very same upstream behaviour during a later
scrape is swallowed by `collect`, which then yields nothing. -/
theorem C9_init_propagates (env : Env) (e : PyErr)
    (h : (get_deluge_stats env).1 = .error e) :
    initCollector env = .error e ∧ mainAfterConfig env = .error e ∧
      collect env = ([], none) := by
  cases hg : get_deluge_stats env with
  | mk r tr =>
    rw [hg] at h
    simp at h
    subst h
    have hinit : initCollector env = .error e := by simp [initCollector, hg]
    refine ⟨hinit, ?_, ?_⟩
    · simp [mainAfterConfig, hinit]
    · simp [collect, hg]

/-- C9 witness: an unreachable upstream (HTTP 500 on the status query) makes
startup fail before registration and binding, while a scrape with the same
upstream swallows the error and emits nothing. -/
theorem C9_witness :
    initCollector envHttpDown = .error (.statsHttpError 500) ∧
      mainAfterConfig envHttpDown = .error (.statsHttpError 500) ∧
      collect envHttpDown = ([], none) :=
  C9_init_propagates envHttpDown (.statsHttpError 500) rfl

/-- C5 counterexample: with a disconnected status and a malformed host list
whose first entry is empty, `get_connection` raises `IndexError` at
`result[0][0]` — not the `Get connection error!` exception the spec taxonomy
names `ConnectionSetupError` — refuting the claim that a malformed list fails
with `ConnectionSetupError`. -/
theorem C5_counterexample :
    (get_deluge_stats envEmptyHostEntry).1 = .error .indexError ∧
      PyErr.indexError.isConnectionSetupError = false :=
  ⟨rfl, rfl⟩

/-- C5 (amended): whenever the status reports `connected = false`, the connect
recovery requests the host list; it fails with the `Get connection error!`
exception (`ConnectionSetupError`) when the list result is null or empty; when
the first host entry is itself empty it fails with `IndexError` instead;
otherwise it connects to the first entry's first element, fails with
`ConnectionSetupError` when that connect call reports a falsy result, and on
success retries the status query exactly once. -/
theorem C5_connect_recovery (env : Env) (d : Snapshot)
    (h0 : env.updateUi 0 = ⟨200, some d⟩) (hd : d.connected = false)
    (hs : env.getHosts.status = 200) :
    (env.getHosts.result = none ∨ env.getHosts.result = some [] →
      (get_deluge_stats env).1 = .error .connBadResponse ∧
        PyErr.connBadResponse.isConnectionSetupError = true) ∧
    (∀ rest, env.getHosts.result = some ([] :: rest) →
      (get_deluge_stats env).1 = .error .indexError) ∧
    (∀ sid ids rest, env.getHosts.result = some ((sid :: ids) :: rest) →
      env.connect.status = 200 → env.connect.result = false →
      (get_deluge_stats env).1 = .error .connBadResponse ∧
        PyErr.connBadResponse.isConnectionSetupError = true) ∧
    (∀ sid ids rest, env.getHosts.result = some ((sid :: ids) :: rest) →
      env.connect.status = 200 → env.connect.result = true →
      (get_deluge_stats env).2 =
        [.updateUiCall, .getHostsCall, .connectCall sid, .updateUiCall]) := by
  have hw : get_webui_data env 0 = .ok (some d) := by simp [get_webui_data, h0]
  have hred : get_deluge_stats env = statusPhase env (some d) 1 [.updateUiCall] := by
    unfold get_deluge_stats
    rw [hw]
  refine ⟨?_, ?_, ?_, ?_⟩
  · intro hres
    have hconn : get_connection env = (.error .connBadResponse, [.getHostsCall]) := by
      rcases hres with h | h <;> simp [get_connection, hs, h]
    rw [hred]
    exact ⟨by simp [statusPhase, hd, hconn], rfl⟩
  · intro rest hres
    have hconn : get_connection env = (.error .indexError, [.getHostsCall]) := by
      simp [get_connection, hs, hres]
    rw [hred]
    simp [statusPhase, hd, hconn]
  · intro sid ids rest hres hcs hcr
    have hconn : get_connection env =
        (.error .connBadResponse, [.getHostsCall, .connectCall sid]) := by
      simp [get_connection, hs, hres, hcs, hcr]
    rw [hred]
    exact ⟨by simp [statusPhase, hd, hconn], rfl⟩
  · intro sid ids rest hres hcs hcr
    have hconn : get_connection env = (.ok (), [.getHostsCall, .connectCall sid]) := by
      simp [get_connection, hs, hres, hcs, hcr]
    rw [hred]
    simp only [statusPhase, hd, Bool.false_eq_true, if_false, hconn]
    cases hw1 : get_webui_data env 1 with
    | error e => simp
    | ok o =>
      cases o with
      | none => simp
      | some d2 => by_cases hc2 : d2.connected <;> simp [hc2]

/-- C5 witness: against an upstream that stays disconnected, the recovery
issues `web.get_hosts`, connects to host id 7 (the first element of the first
host entry) and retries the status query exactly once. -/
theorem C5_witness :
    (get_deluge_stats envStaysDisc).2 =
      [.updateUiCall, .getHostsCall, .connectCall 7, .updateUiCall] :=
  (C5_connect_recovery envStaysDisc snapDisc rfl rfl rfl).2.2.2 7 [] [] rfl rfl rfl

/-- C2 counterexample: a snapshot holding one torrent with a missing
`total_wanted` key and one complete torrent produces only the filter sample
and a `KeyError` — the complete torrent contributes nothing and the scrape is
aborted, refuting the claimed per-torrent skip. -/
theorem C2_counterexample :
    (mapSnapshot snapMixed).1 =
      ([⟨"deluge_torrent_state_count", [("state", "seeding")], 1⟩],
       some PyErr.keyError) := rfl

/-- C2 (amended): a torrent record missing `name`, `state`, `tracker_host` or
any of the per-torrent counters makes `process_torrents_stats` raise
`KeyError`, aborting torrent emission as a whole: no torrent (complete ones
included) contributes observations and the error escapes the mapping; only
when every record is complete does each torrent contribute its full set. -/
theorem C2_missing_field_aborts (ts : List Torrent) (s : Snapshot)
    (l : List (String × Rat)) :
    ((∃ t ∈ ts, t.complete = false) →
      (processTorrentsStats ts).2 = .error .keyError) ∧
    ((∀ t ∈ ts, t.complete = true) →
      ∃ rows, (processTorrentsStats ts).2 = .ok rows ∧ rows.length = ts.length) ∧
    (s.filters.state = some l → (∃ t ∈ s.torrents, t.complete = false) →
      (mapSnapshot s).1.2 = some PyErr.keyError) := by
  refine ⟨processTorrentsStats_error_of_incomplete ts, ?_, ?_⟩
  · intro h
    obtain ⟨rows, hrows, hlen⟩ := processTorrentsStats_ok_of_complete ts h
    exact ⟨rows, by rw [hrows], hlen⟩
  · intro hf hbad
    have herr := processTorrentsStats_error_of_incomplete s.torrents hbad
    cases hp : processTorrentsStats s.torrents with
    | mk ts' r =>
      rw [hp] at herr
      simp at herr
      subst herr
      simp [mapSnapshot, hf, hp]

/-- C2 witness: the single incomplete torrent makes `process_torrents_stats`
raise `KeyError`, and the mixed snapshot's mapping ends in that error. -/
theorem C2_witness :
    (processTorrentsStats [incompleteTorrent]).2 = .error .keyError ∧
      (mapSnapshot snapMixed).1.2 = some PyErr.keyError :=
  ⟨(C2_missing_field_aborts [incompleteTorrent] snapMixed [("seeding", 1)]).1
      ⟨incompleteTorrent, by simp, rfl⟩,
   (C2_missing_field_aborts [incompleteTorrent] snapMixed [("seeding", 1)]).2.2 rfl
      ⟨incompleteTorrent, by simp [snapMixed], rfl⟩⟩

/-- C3 counterexample: with a healthy session but an incomplete torrent in the
snapshot, the scrape emits the filter sample and then lets the mapper's
`KeyError` escape `collect` — the error is neither caught nor logged and the
scrape is not empty, refuting the claim for Stats-Mapper errors. -/
theorem C3_counterexample :
    collect envMapperTrips =
      ([⟨"deluge_torrent_state_count", [("state", "seeding")], 1⟩],
       some PyErr.keyError) := rfl

/-- C3 (amended): an exception raised by `get_deluge_stats` (the Session
Manager) is caught and logged by `collect` and the scrape yields no
observations; an exception raised by the stats mapping, however, is outside
the `try` block and escapes `collect` together with the observations already
yielded. -/
theorem C3_collector_error_handling (env : Env) :
    (∀ e, (get_deluge_stats env).1 = .error e → collect env = ([], none)) ∧
    (∀ s obs e, (get_deluge_stats env).1 = .ok s →
      (mapSnapshot s).1 = (obs, some e) → collect env = (obs, some e)) := by
  constructor
  · intro e h
    cases hg : get_deluge_stats env with
    | mk r tr =>
      rw [hg] at h
      simp at h
      subst h
      simp [collect, hg]
  · intro s obs e h hm
    cases hg : get_deluge_stats env with
    | mk r tr =>
      rw [hg] at h
      simp at h
      subst h
      simp [collect, hg, hm]

/-- C3 witness: a dead upstream yields an empty, error-free scrape, while a
mapper `KeyError` escapes with the already-yielded filter sample. -/
theorem C3_witness :
    collect envHttpDown = ([], none) ∧
      collect envMapperTrips =
        ([⟨"deluge_torrent_state_count", [("state", "seeding")], 1⟩],
         some PyErr.keyError) :=
  ⟨(C3_collector_error_handling envHttpDown).1 (.statsHttpError 500) rfl,
   (C3_collector_error_handling envMapperTrips).2 snapMixed
      [⟨"deluge_torrent_state_count", [("state", "seeding")], 1⟩]
      PyErr.keyError rfl rfl⟩

/-- C6 counterexample: mapping a snapshot whose torrent has state `"Seeding"`
changes the snapshot — line 154 lower-cases the state in place — refuting the
claim that the mapping leaves the input unchanged. -/
theorem C6_counterexample : (mapSnapshot snapUpper).2 ≠ snapUpper := by decide

/-- C6 (amended): the mapping leaves the connection flag, the filters and the
global stats of the snapshot unchanged, but mutates the torrent records in
place: on an error-free pass every record's state is lower-cased. -/
theorem C6_mapping_mutates_state_only (s : Snapshot) :
    ((mapSnapshot s).2.connected = s.connected ∧
     (mapSnapshot s).2.filters = s.filters ∧
     (mapSnapshot s).2.stats = s.stats) ∧
    ((mapSnapshot s).1.2 = none →
      (mapSnapshot s).2.torrents = s.torrents.map Torrent.lowerState) := by
  refine ⟨mapSnapshot_preserves s, ?_⟩
  intro hnone
  cases hf : s.filters.state with
  | none => simp [mapSnapshot, hf] at hnone
  | some l =>
    cases hp : processTorrentsStats s.torrents with
    | mk ts' r =>
      cases r with
      | error e => simp [mapSnapshot, hf, hp] at hnone
      | ok rows =>
        have := processTorrentsStats_fst_of_ok s.torrents ts' rows hp
        simp [mapSnapshot, hf, hp, this]

/-- C6 witness: the upper-case-state snapshot maps without error, its
non-torrent parts are preserved and its torrent list comes back state-lowered. -/
theorem C6_witness :
    (mapSnapshot snapUpper).2.connected = snapUpper.connected ∧
      (mapSnapshot snapUpper).2.torrents =
        snapUpper.torrents.map Torrent.lowerState :=
  ⟨(C6_mapping_mutates_state_only snapUpper).1.1,
   (C6_mapping_mutates_state_only snapUpper).2 rfl⟩

/-- C7: mapping the snapshot left behind by a first mapping pass produces the
very same observation sequence and the same escaping error (list equality,
hence equality of the multisets of (name, labels, value) samples): the
mapping is idempotent even across the in-place state mutation. -/
theorem C7_mapping_idempotent (s : Snapshot) :
    (mapSnapshot (mapSnapshot s).2).1 = (mapSnapshot s).1 := by
  cases hf : s.filters.state with
  | none => simp [mapSnapshot, hf]
  | some l =>
    cases hp : processTorrentsStats s.torrents with
    | mk ts' r =>
      have hidem := processTorrentsStats_idem s.torrents
      rw [hp] at hidem
      cases r with
      | error e => simp [mapSnapshot, hf, hp, hidem]
      | ok rows => simp [mapSnapshot, hf, hp, hidem]

/-- C8: each numeric entry of `global_stats` yields exactly one unlabelled
sample named `deluge_` plus the lower-cased key carrying that value, and each
non-numeric entry yields nothing and raises nothing; in particular the spec's
scenario snapshot emits exactly `deluge_upload_rate = 1024`. -/
theorem C8_stats_numeric_only (k : String) (v : PyValue)
    (rest : List (String × PyValue)) :
    statsObs ((k, v) :: rest) =
      (if v.isNumeric then [⟨"deluge_" ++ pyLower k, [], v.toRat⟩] else []) ++
        statsObs rest ∧
    statsObs [("upload_rate", .intV 1024), ("external_ip", .strV "10.0.0.1")] =
      [⟨"deluge_upload_rate", [], 1024⟩] := by
  constructor
  · cases hn : v.isNumeric <;> simp [statsObs, hn]
  · rfl

/-- C10: a boolean entry of `global_stats` passes the `isinstance(value, int)`
test (Python's `bool` is a subtype of `int`) and is emitted as an unlabelled
sample of value 1 or 0 rather than skipped. -/
theorem C10_bool_counts_as_numeric (k : String) (b : Bool)
    (rest : List (String × PyValue)) :
    (PyValue.boolV b).isNumeric = true ∧
    statsObs ((k, .boolV b) :: rest) =
      ⟨"deluge_" ++ pyLower k, [], if b then 1 else 0⟩ :: statsObs rest := by
  refine ⟨rfl, ?_⟩
  simp [statsObs, PyValue.isNumeric, PyValue.toRat]

end DelugeExporter
